import Mathlib

/-!
# Verification of the Gomoku dedicated server and stable client

A shallow embedding of the message handlers of `src/dedicated_server.py`
(class `DedicatedGomokuServer`) and of the reconnection logic of
`src/stable_client.py` (class `StableGomokuClient`).

Modelling conventions:
* Python dicts (`self.players`, `self.rooms`, JSON objects) are association
  lists keyed by `String`; `dictGet?`, `dictSet`, `dictErase` mirror
  `d.get(k)`, `d[k] = v`, `del d[k]`.
* Wall-clock values (`time.time()`) are rationals passed in explicitly as
  a `now` argument.
* A `Player.socket` is modelled by a `Bool`: `true` when the player holds a
  live socket object, `false` when `socket is None`.
* Sending on a socket is modelled as emitting a `(recipient, OutMsg)` pair;
  handlers return the list of emissions, in order.
* A Python exception escaping a handler is modelled by the `err` flag of
  `HResult`; in-place mutations made before the raise persist in `state`,
  as they do in Python.
* Fields of the source dataclasses that no handler reads (timestamps such
  as `last_ping`, `connected_time`, and `session_token`) are omitted.
* Message payload fields are typed as the clients produce them
  (`row`, `col`, `player_id` are integers); the relayed pause/resume
  payloads are kept as untyped JSON objects since the server forwards
  them verbatim.
-/

/-- A JSON scalar value, enough to carry the relayed payloads verbatim. -/
inductive JVal where
  | str (s : String)
  | num (q : Rat)
  | boolean (b : Bool)
  | null
deriving DecidableEq

/-- A JSON object: the `data` field of a relayed message. -/
abbrev JObj := List (String × JVal)

/-- `d.get(k)` on a Python dict modelled as an association list. -/
def dictGet? {α : Type} : List (String × α) → String → Option α
  | [], _ => none
  | (k', v) :: rest, k => if k' = k then some v else dictGet? rest k

/-- `d[k] = v`: replace the binding of `k`, or append it if absent. -/
def dictSet {α : Type} : List (String × α) → String → α → List (String × α)
  | [], k, v => [(k, v)]
  | (k', v') :: rest, k, v =>
    if k' = k then (k, v) :: rest else (k', v') :: dictSet rest k v

/-- `del d[k]`: drop every binding of `k` (keys are unique in reachable states). -/
def dictErase {α : Type} (l : List (String × α)) (k : String) : List (String × α) :=
  l.filter (fun p => p.1 != k)

/-- Resolve a Python list index (negative indices wrap) against a list length. -/
def pyIdx (len : Nat) (i : Int) : Option Nat :=
  if 0 ≤ i ∧ i < (len : Int) then some i.toNat
  else if -(len : Int) ≤ i ∧ i < 0 then some (i + len).toNat
  else none

/-- Python `l[i]`; `none` models an `IndexError`. -/
def pyListGet {α : Type} (l : List α) (i : Int) : Option α :=
  (pyIdx l.length i).bind fun j => l.get? j

/-- Python `l[i] = v`; `none` models an `IndexError`. -/
def pyListSet {α : Type} (l : List α) (i : Int) (v : α) : Option (List α) :=
  (pyIdx l.length i).map fun j => l.set j v

/-- The 15×15 board mirror; cells hold the client-reported `player_id`
(0 is empty in reachable states). -/
abbrev Board := List (List Int)

/-- `[[0 for _ in range(15)] for _ in range(15)]`. -/
def freshBoard : Board := List.replicate 15 (List.replicate 15 0)

/-- Python `board[row][col] = v`; `none` models an `IndexError`/`TypeError`. -/
def boardSet (b : Board) (row col : Int) (v : Int) : Option Board :=
  match pyListGet b row with
  | none => none
  | some r =>
    match pyListSet r col v with
    | none => none
    | some r' => pyListSet b row r'

/-- Read the cell `board[row][col]`. -/
def cellAt (b : Board) (row col : Int) : Option Int :=
  match pyListGet b row with
  | none => none
  | some r => pyListGet r col

/-- One committed move, as appended to `game_state["moves"]`. -/
structure MoveRec where
  player : String
  row : Int
  col : Int
deriving DecidableEq

/-- The `game_state` dict of a `GameRoom`. -/
structure GameState where
  board : Board
  current_player : Int
  moves : List MoveRec
deriving DecidableEq

/-- The `timer_state` dict of a `GameRoom`. -/
structure TimerState where
  turn_start_time : Option Rat
  elapsed_before_pause : Rat
  move_time_limit : Rat
deriving DecidableEq

/-- The fresh `game_state` installed at room creation and new-game reset. -/
def freshGameState : GameState :=
  { board := freshBoard, current_player := 1, moves := [] }

/-- The `GameRoom` dataclass. -/
structure GameRoom where
  room_id : String
  name : String
  host_id : String
  players : List String
  max_players : Nat
  game_state : GameState
  game_paused : Bool
  timer_state : Option TimerState
deriving DecidableEq

/-- The `Player` dataclass (fields no handler reads are omitted). -/
structure Player where
  client_id : String
  name : String
  socket : Bool
  room_id : Option String
deriving DecidableEq

/-- The mutable server state touched by the dispatched handlers. -/
structure ServerState where
  players : List (String × Player)
  rooms : List (String × GameRoom)
  next_room_id : Nat
deriving DecidableEq

/-- A summary entry of the `room_list` reply. -/
structure RoomSummary where
  room_id : String
  name : String
  host_name : String
  players : Nat
  max_players : Nat
deriving DecidableEq

/-- An outbound server→client message (the `type` tag and `data` payload). -/
inductive OutMsg where
  | pong
  | timer_sync (timer_state : Option TimerState)
  | game_move (player : String) (row col player_id : Int)
      (timer_state : Option TimerState)
  | game_ended_disconnect (reason disconnected_player winner message : String)
      (forfeit no_rematch : Bool)
  | room_info (room_id name host_name : String) (players max_players : Nat)
      (message : Option String)
  | room_list (rooms : List RoomSummary)
  | game_started (room_id your_role your_name opponent_name black white : String)
      (your_turn : Bool)
  | new_game_response_msg (room_id : String) (accepted : Bool) (message : String)
  | forward (type : String) (data : JObj)
deriving DecidableEq

/-- The result of running one handler: the mutated server state, the
emissions made before returning or raising, and whether an exception
escaped the handler (`err = true`). -/
structure HResult where
  state : ServerState
  out : List (String × OutMsg)
  err : Bool
deriving DecidableEq

/-- `_send_to_client`: emit to `cid` iff it is registered with a live socket. -/
def send_to_client (s : ServerState) (cid : String) (m : OutMsg) :
    List (String × OutMsg) :=
  match dictGet? s.players cid with
  | none => []
  | some p => if p.socket then [(cid, m)] else []

/-- `_broadcast_to_room`: emit to every roster member other than
`exclude` that is registered with a live socket. -/
def broadcast_to_room (s : ServerState) (roomId : String) (m : OutMsg)
    (exclude : Option String) : List (String × OutMsg) :=
  match dictGet? s.rooms roomId with
  | none => []
  | some room =>
    room.players.filterMap fun cid =>
      if some cid = exclude then none
      else match dictGet? s.players cid with
        | some p => if p.socket then some (cid, m) else none
        | none => none

/-- The data payload of a `game_move` message as the client builds it. -/
structure GameMoveData where
  row : Int
  col : Int
  player_id : Int
  board : Option Board
deriving DecidableEq

/-- The timer dict written by `_handle_game_move` after a commit. -/
def timerAfterMove (room : GameRoom) (now : Rat) : TimerState :=
  { turn_start_time := some now
    elapsed_before_pause := 0
    move_time_limit :=
      match room.timer_state with
      | some ts => ts.move_time_limit
      | none => 30 }

/-- The board `_handle_game_move` operates on after its ensure-step
(`if "board" not in ... or not ...board: fresh`) and the optional client
board sync (`if data.get("board"): ... = data["board"]`, a truthy check,
so an empty list does not replace the board). -/
def effectiveBoard (room : GameRoom) (d : GameMoveData) : Board :=
  let board0 := if room.game_state.board = [] then freshBoard
                else room.game_state.board
  match d.board with
  | some b => if b = [] then board0 else b
  | none => board0

/-- `_handle_game_move` (dedicated_server.py:578-643). -/
def handle_game_move (s : ServerState) (clientId : String) (d : GameMoveData)
    (now : Rat) : HResult :=
  match dictGet? s.players clientId with
  | none => ⟨s, [], false⟩
  | some player =>
    if player.socket = false then ⟨s, [], false⟩
    else match player.room_id with
    | none => ⟨s, [], false⟩
    | some roomId =>
      match dictGet? s.rooms roomId with
      | none => ⟨s, [], false⟩
      | some room =>
        let gs0 := room.game_state
        let board1 := effectiveBoard room d
        match boardSet board1 d.row d.col d.player_id with
        | none =>
          -- IndexError on `board[row][col] = player_id`; the in-place
          -- board mutations made so far persist
          let room' := { room with game_state := { gs0 with board := board1 } }
          ⟨{ s with rooms := dictSet s.rooms roomId room' }, [], true⟩
        | some board2 =>
          let moves' := gs0.moves ++ [⟨player.name, d.row, d.col⟩]
          let current' := 3 - gs0.current_player
          let timer' := timerAfterMove room now
          let room' := { room with
            game_state := { board := board2, current_player := current',
                            moves := moves' }
            timer_state := some timer' }
          let s' := { s with rooms := dictSet s.rooms roomId room' }
          ⟨s',
            send_to_client s' clientId (.timer_sync (some timer'))
              ++ broadcast_to_room s' roomId
                  (.game_move player.name d.row d.col d.player_id (some timer'))
                  (some clientId),
            false⟩

/-- The `player_pause` / `player_resume` branch of `_handle_message`
(dedicated_server.py:415-429): relay the payload to the rest of the room,
touching no room state. -/
def handle_pause_resume (s : ServerState) (clientId : String) (msgType : String)
    (data : JObj) : HResult :=
  match dictGet? s.players clientId with
  | none => ⟨s, [], false⟩
  | some player =>
    match player.room_id with
    | none => ⟨s, [], false⟩
    | some roomId =>
      match dictGet? s.rooms roomId with
      | none => ⟨s, [], false⟩
      | some _ =>
        ⟨s, broadcast_to_room s roomId (.forward msgType data) (some clientId),
          false⟩

/-- `_start_game` (dedicated_server.py:527-576): personalized
`game_started` to the first two roster members. -/
def start_game (s : ServerState) (roomId : String) : List (String × OutMsg) :=
  match dictGet? s.rooms roomId with
  | none => []
  | some room =>
    match room.players with
    | blackId :: whiteId :: _ =>
      let blackName := ((dictGet? s.players blackId).map Player.name).getD ("Unknown")
      let whiteName := ((dictGet? s.players whiteId).map Player.name).getD ("Unknown")
      send_to_client s blackId
          (.game_started roomId ("black") blackName whiteName blackName whiteName true)
        ++ send_to_client s whiteId
          (.game_started roomId ("white") whiteName blackName blackName whiteName false)
    | _ => []

/-- `_handle_new_game_response` (dedicated_server.py:669-703). -/
def handle_new_game_response (s : ServerState) (clientId : String)
    (accepted : Bool) : HResult :=
  match dictGet? s.players clientId with
  | none => ⟨s, [], false⟩
  | some player =>
    match player.room_id with
    | none => ⟨s, [], false⟩
    | some roomId =>
      match dictGet? s.rooms roomId with
      | none => ⟨s, [], false⟩
      | some room =>
        if accepted then
          let room' := { room with game_state := freshGameState }
          let s' := { s with rooms := dictSet s.rooms roomId room' }
          ⟨s', start_game s' roomId, false⟩
        else
          let msgs := room.players.bind fun oid =>
            if oid = clientId then []
            else send_to_client s oid
              (.new_game_response_msg roomId false
                (player.name ++ " declined the new game"))
          ⟨s, msgs, false⟩

/-- `_send_room_list`'s `rooms_data`: the joinable rooms. -/
def roomSummaries (s : ServerState) : List RoomSummary :=
  s.rooms.filterMap fun p =>
    if p.2.players.length < p.2.max_players then
      some { room_id := p.2.room_id, name := p.2.name
             host_name := ((dictGet? s.players p.2.host_id).map Player.name).getD ("Unknown")
             players := p.2.players.length, max_players := p.2.max_players }
    else none

/-- `_send_room_list` (dedicated_server.py:500-517). -/
def send_room_list (s : ServerState) (cid : String) : List (String × OutMsg) :=
  send_to_client s cid (.room_list (roomSummaries s))

/-- `_broadcast_room_list` (dedicated_server.py:519-525): room list to
every lobby-resident player. -/
def broadcast_room_list (s : ServerState) : List (String × OutMsg) :=
  s.players.bind fun p =>
    if p.2.room_id = none then send_room_list s p.1 else []

/-- The `room_create` branch of `_handle_message`
(dedicated_server.py:311-346). -/
def handle_room_create (s : ServerState) (clientId : String)
    (roomName : String) : HResult :=
  let roomId := "room_" ++ toString s.next_room_id
  let s1 := { s with next_room_id := s.next_room_id + 1 }
  let room : GameRoom :=
    { room_id := roomId, name := roomName, host_id := clientId
      players := [clientId], max_players := 2
      game_state := freshGameState, game_paused := false
      timer_state := some { turn_start_time := none, elapsed_before_pause := 0,
                            move_time_limit := 60 } }
  let s2 := { s1 with rooms := dictSet s1.rooms roomId room }
  match dictGet? s2.players clientId with
  | none => ⟨s2, [], true⟩  -- KeyError on `self.players[client_id]`
  | some player =>
    let s3 := { s2 with
      players := dictSet s2.players clientId { player with room_id := some roomId } }
    ⟨s3,
      send_to_client s3 clientId
          (.room_info roomId roomName player.name 1 2 none)
        ++ broadcast_room_list s3,
      false⟩

/-- `_remove_client` (dedicated_server.py:766-858): close the socket,
run the graceful-forfeit cascade, delete the player record. -/
def remove_client (s : ServerState) (clientId : String) (force : Bool) :
    ServerState × List (String × OutMsg) :=
  match dictGet? s.players clientId with
  | none => (s, [])
  | some player =>
    if !force && player.socket = false then (s, [])
    else
      -- player.socket = None
      let s1 := { s with
        players := dictSet s.players clientId { player with socket := false } }
      match player.room_id with
      | none => ({ s1 with players := dictErase s1.players clientId }, [])
      | some roomId =>
        match dictGet? s1.rooms roomId with
        | none => ({ s1 with players := dictErase s1.players clientId }, [])
        | some room =>
          let survivors := room.players.erase clientId
          if survivors = [] then
            -- empty room: delete it, then delete the player record
            let s2 := { s1 with rooms := dictErase s1.rooms roomId }
            ({ s2 with players := dictErase s2.players clientId }, [])
          else
            let winner_name :=
              (survivors.findSome? fun pid =>
                if pid = clientId then none
                else (dictGet? s1.players pid).map Player.name).getD ("Unknown")
            let room1 := { room with players := survivors }
            let s2 := { s1 with rooms := dictSet s1.rooms roomId room1 }
            let endMsgs := broadcast_to_room s2 roomId
              (.game_ended_disconnect ("opponent_disconnected") player.name
                winner_name
                (player.name ++ " has disconnected. " ++ winner_name
                  ++ " wins by forfeit!")
                true true)
              none
            let hostPair :=
              if clientId = room.host_id then
                (survivors.headD (""), "You are now the host!")
              else
                (room.host_id, "Opponent disconnected. You are the host.")
            let new_host_id := hostPair.1
            let new_host_name :=
              ((dictGet? s2.players new_host_id).map Player.name).getD ("Unknown")
            let room2 := { room1 with host_id := new_host_id }
            let s3 := { s2 with rooms := dictSet s2.rooms roomId room2 }
            let infoMsgs := survivors.bind fun rid =>
              if (dictGet? s3.players rid).isSome then
                send_to_client s3 rid
                  (.room_info room.room_id room.name new_host_name
                    survivors.length room.max_players
                    (some (if rid = new_host_id then hostPair.2
                           else new_host_name ++ " is the host")))
              else []
            ({ s3 with players := dictErase s3.players clientId },
              endMsgs ++ infoMsgs)

/-- The inbound message types the dispatcher handles that this
development models. -/
inductive InMsg where
  | game_move (d : GameMoveData)
  | player_pause (data : JObj)
  | player_resume (data : JObj)
  | new_game_response (accepted : Bool)
  | room_create (room_name : String)
deriving DecidableEq

/-- `_handle_message` (dedicated_server.py:275-453), restricted to the
modelled message types; the sender-registered guard at its top. -/
def handle_message (s : ServerState) (clientId : String) (m : InMsg)
    (now : Rat) : HResult :=
  match dictGet? s.players clientId with
  | none => ⟨s, [], false⟩
  | some _ =>
    match m with
    | .game_move d => handle_game_move s clientId d now
    | .player_pause data => handle_pause_resume s clientId ("player_pause") data
    | .player_resume data => handle_pause_resume s clientId ("player_resume") data
    | .new_game_response a => handle_new_game_response s clientId a
    | .room_create n => handle_room_create s clientId n

/-- `_process_messages` (dedicated_server.py:256-273): one pass over the
drained queue; each handler runs inside `try/except Exception`, so a
raising handler (`err = true`) never stops the loop. -/
def process_messages (s : ServerState) (msgs : List (String × InMsg))
    (now : Rat) : ServerState × List (String × OutMsg) :=
  match msgs with
  | [] => (s, [])
  | (cid, m) :: rest =>
    let r := handle_message s cid m now
    let next := process_messages r.state rest now
    (next.1, r.out ++ next.2)

/-- Observable events the stable client raises through its
`connection_callbacks`, plus the backoff sleeps of the reconnect loop. -/
inductive ClientEvent where
  | connection_lost
  | reconnecting (attempt maxAttempts : Nat)
  | sleep (seconds : Nat)
  | reconnect_success
  | reconnect_failed
  | disconnect
deriving DecidableEq

/-- The body of `_reconnect_loop` (stable_client.py:276-324), one
iteration per remaining attempt; `tryConnect a` tells whether attempt `a`
both reconnected and re-joined the lobby.  The `running` and
`is_reconnecting` flags are `true` throughout in this sequential model
(no concurrent cancellation). -/
def reconnectGo (attempt remaining maxAttempts : Nat)
    (tryConnect : Nat → Bool) : List ClientEvent :=
  match remaining with
  | 0 => [ClientEvent.reconnect_failed, ClientEvent.disconnect]
  | r + 1 =>
    ClientEvent.reconnecting attempt maxAttempts ::
      if tryConnect attempt then [ClientEvent.reconnect_success]
      else
        (if attempt < maxAttempts then [ClientEvent.sleep 5] else [])
          ++ reconnectGo (attempt + 1) r maxAttempts tryConnect

/-- `_reconnect_loop`, started at attempt 1. -/
def reconnect_loop (maxAttempts : Nat) (tryConnect : Nat → Bool) :
    List ClientEvent :=
  reconnectGo 1 maxAttempts maxAttempts tryConnect

/-- The tail of `_receive_loop` (stable_client.py:198-209): what the client
does once its receive loop exits.  With a room reference it runs
`_attempt_reconnection` (emitting `connection_lost`, then the reconnect
loop); without one it calls `disconnect()`. -/
def receive_loop_exit (connected is_reconnecting : Bool)
    (current_room_id : Option String) (maxAttempts : Nat)
    (tryConnect : Nat → Bool) : List ClientEvent :=
  if connected && !is_reconnecting then
    match current_room_id with
    | some _ => ClientEvent.connection_lost :: reconnect_loop maxAttempts tryConnect
    | none => [ClientEvent.disconnect]
  else []

/-- The line-splitting loop of `_handle_client` (dedicated_server.py:230-237):
extract every complete newline-terminated frame from the buffer, return the
frames and the retained remainder.  Each iteration consumes at least the
newline byte, so the buffer length is a fuel bound for the `while` loop. -/
def splitFramesAux : Nat → List Nat → List (List Nat) × List Nat
  | 0, buf => ([], buf)
  | fuel + 1, buf =>
    if 10 ∈ buf then
      let line := buf.takeWhile (fun b => b != 10)
      let rest := (buf.dropWhile (fun b => b != 10)).tail
      let p := splitFramesAux fuel rest
      (line :: p.1, p.2)
    else ([], buf)

/-- `while b'\n' in buffer: line, buffer = buffer.split(b'\n', 1)`. -/
def splitFrames (buf : List Nat) : List (List Nat) × List Nat :=
  splitFramesAux buf.length buf

/-- One iteration of the `_handle_client` receive loop
(dedicated_server.py:222-237) after `recv` returned `data`: empty `data`
means EOF and the connection closes; otherwise the bytes are appended to
the buffer and every complete non-empty frame is dispatched.  There is no
size check of any kind. -/
structure RecvStep where
  closed : Bool
  buffer : List Nat
  frames : List (List Nat)
deriving DecidableEq

/-- The receive-step function of `_handle_client`. -/
def recvStep (buffer data : List Nat) : RecvStep :=
  if data = [] then { closed := true, buffer := buffer, frames := [] }
  else
    { closed := false
      buffer := (splitFrames (buffer ++ data)).2
      frames := (splitFrames (buffer ++ data)).1.filter (fun l => l != []) }

/-- The debug stone counter of `_handle_game_move` (line 611):
`sum(cell != 0 for row_data in board for cell in row_data)`; also the
spec's count of non-Empty cells in the board mirror. -/
def stoneCount (b : Board) : Nat :=
  (b.map fun r => r.countP fun c => c != 0).sum

/-- Invariant I2 of the spec: the count of non-empty cells in the room's
board mirror equals the length of its move log. -/
def roomInvariant (room : GameRoom) : Prop :=
  stoneCount room.game_state.board = room.game_state.moves.length

instance roomInvariantDecidable (room : GameRoom) :
    Decidable (roomInvariant room) := by
  unfold roomInvariant
  infer_instance

/-- The sender's seat index: its position in the room roster. -/
def seatIndex (room : GameRoom) (cid : String) : Option Nat :=
  room.players.findIdx? fun c => c == cid

/-- The spec's `current_player_index ∈ {0,1}`: the room's
`current_player` (1 or 2) minus one. -/
def currentIndex (room : GameRoom) : Int :=
  room.game_state.current_player - 1

/-- The sender's seat index differs from the index of the player whose
turn it is. -/
def offTurn (room : GameRoom) (cid : String) : Prop :=
  (seatIndex room cid).map Int.ofNat ≠ some (currentIndex room)

instance offTurnDecidable (room : GameRoom) (cid : String) :
    Decidable (offTurn room cid) := by
  unfold offTurn
  infer_instance

/-- A client id that is registered with a live socket. -/
def isLive (s : ServerState) (cid : String) : Bool :=
  match dictGet? s.players cid with
  | some p => p.socket
  | none => false

/-! ## Association-list and Python-list helper lemmas -/

theorem dictGet?_dictSet_self {α : Type} (l : List (String × α)) (k : String)
    (v : α) : dictGet? (dictSet l k v) k = some v := by
  induction l with
  | nil => simp [dictSet, dictGet?]
  | cons p rest ih =>
    by_cases h : p.1 = k
    · simp [dictSet, dictGet?, h]
    · simp [dictSet, dictGet?, h, ih]

theorem dictGet?_dictSet_ne {α : Type} (l : List (String × α)) (k k' : String)
    (v : α) (h : k' ≠ k) : dictGet? (dictSet l k v) k' = dictGet? l k' := by
  induction l with
  | nil =>
    simp only [dictSet, dictGet?]
    exact if_neg fun hh => h hh.symm
  | cons p rest ih =>
    by_cases hp : p.1 = k
    · subst hp
      simp [dictSet, dictGet?, Ne.symm h]
    · by_cases hp' : p.1 = k'
      · simp [dictSet, dictGet?, hp, hp', h]
      · simp [dictSet, dictGet?, hp, hp', ih]

theorem dictGet?_filter_self {α : Type} (l : List (String × α)) (k : String) :
    dictGet? (l.filter fun p => p.1 != k) k = none := by
  induction l with
  | nil => simp [dictGet?]
  | cons p rest ih =>
    by_cases h : p.1 = k
    · simp [List.filter_cons, h, ih]
    · simp [List.filter_cons, h, dictGet?, ih]

theorem dictGet?_filter_other {α : Type} (l : List (String × α))
    (k k' : String) (h : k' ≠ k) :
    dictGet? (l.filter fun p => p.1 != k) k' = dictGet? l k' := by
  induction l with
  | nil => simp
  | cons p rest ih =>
    by_cases hp : p.1 = k
    · have hp' : p.1 ≠ k' := fun hh => h (hh.symm.trans hp)
      simp [List.filter_cons, hp, dictGet?, hp', Ne.symm h, ih]
    · by_cases hp' : p.1 = k'
      · simp [List.filter_cons, hp, dictGet?, hp', h]
      · simp [List.filter_cons, hp, dictGet?, hp', ih]

theorem dictGet?_dictErase_self {α : Type} (l : List (String × α))
    (k : String) : dictGet? (dictErase l k) k = none :=
  dictGet?_filter_self l k

theorem dictGet?_dictErase_ne {α : Type} (l : List (String × α))
    (k k' : String) (h : k' ≠ k) :
    dictGet? (dictErase l k) k' = dictGet? l k' :=
  dictGet?_filter_other l k k' h

theorem pyListGet_eq {α : Type} (l : List α) (i : Int) (x : α)
    (h : pyListGet l i = some x) :
    ∃ j, pyIdx l.length i = some j ∧ l.get? j = some x := by
  unfold pyListGet at h
  cases hj : pyIdx l.length i with
  | none => rw [hj] at h; simp at h
  | some j => rw [hj] at h; exact ⟨j, rfl, h⟩

theorem pyListSet_eq {α : Type} (l : List α) (i : Int) (v : α) (l' : List α)
    (h : pyListSet l i v = some l') :
    ∃ j, pyIdx l.length i = some j ∧ l' = l.set j v := by
  unfold pyListSet at h
  cases hj : pyIdx l.length i with
  | none => rw [hj] at h; simp at h
  | some j =>
    rw [hj] at h
    simp only [Option.map_some'] at h
    injection h with h
    exact ⟨j, rfl, h.symm⟩

/-! ## Stone-counting lemmas -/

theorem countP_set_zero (r : List Int) (j : Nat) (v : Int)
    (hj : r.get? j = some 0) (hv : v ≠ 0) :
    (r.set j v).countP (fun c => c != 0) = r.countP (fun c => c != 0) + 1 := by
  induction r generalizing j with
  | nil => simp at hj
  | cons x xs ih =>
    cases j with
    | zero =>
      simp only [List.get?] at hj
      injection hj with hx
      subst hx
      simp [List.countP_cons, hv]
    | succ j =>
      simp only [List.get?] at hj
      simp only [List.set, List.countP_cons, ih j hj]
      exact Nat.add_right_comm _ 1 _

theorem stoneCount_set_row (b : Board) (i : Nat) (r r' : List Int)
    (hi : b.get? i = some r)
    (hr : r'.countP (fun c => c != 0) = r.countP (fun c => c != 0) + 1) :
    stoneCount (b.set i r') = stoneCount b + 1 := by
  induction b generalizing i with
  | nil => simp at hi
  | cons x xs ih =>
    cases i with
    | zero =>
      simp only [List.get?] at hi
      injection hi with hx
      subst hx
      simp only [List.set, stoneCount, List.map_cons, List.sum_cons]
      omega
    | succ i =>
      simp only [List.get?] at hi
      have := ih i hi
      simp only [List.set, stoneCount, List.map_cons, List.sum_cons] at this ⊢
      omega

theorem stoneCount_boardSet (b b2 : Board) (row col v : Int)
    (hset : boardSet b row col v = some b2)
    (hcell : cellAt b row col = some 0) (hv : v ≠ 0) :
    stoneCount b2 = stoneCount b + 1 := by
  unfold boardSet at hset
  unfold cellAt at hcell
  cases hr : pyListGet b row with
  | none =>
    simp only [hr] at hset
    exact Option.noConfusion hset
  | some r =>
    simp only [hr] at hset hcell
    cases hrs : pyListSet r col v with
    | none =>
      simp only [hrs] at hset
      exact Option.noConfusion hset
    | some r' =>
      simp only [hrs] at hset
      obtain ⟨j, hj, hjz⟩ := pyListGet_eq r col 0 hcell
      obtain ⟨j', hj', hr'⟩ := pyListSet_eq r col v r' hrs
      rw [hj] at hj'
      injection hj' with hjj
      subst hjj
      subst hr'
      obtain ⟨i, hi, hix⟩ := pyListGet_eq b row r hr
      obtain ⟨i', hi', hb2⟩ := pyListSet_eq b row (r.set j v) b2 hset
      rw [hi] at hi'
      injection hi' with hii
      subst hii
      subst hb2
      exact stoneCount_set_row b i r (r.set j v) hix (countP_set_zero r j v hjz hv)

/-! ## Broadcast lemmas -/

theorem filterMap_broadcast (s : ServerState) (m : OutMsg) (ex : String)
    (l : List String) (hlive : ∀ c ∈ l, c ≠ ex → isLive s c = true) :
    (l.filterMap fun cid =>
      if cid = ex then none
      else match dictGet? s.players cid with
        | some p => if p.socket then some (cid, m) else none
        | none => none)
    = (l.filter fun c => c != ex).map fun c => (c, m) := by
  induction l with
  | nil => simp
  | cons c rest ih =>
    have ihr := ih fun x hx hne => hlive x (List.mem_cons_of_mem c hx) hne
    by_cases hc : c = ex
    · subst hc
      simp [List.filterMap_cons, List.filter_cons, ihr]
    · have hl := hlive c (List.mem_cons_self c rest) hc
      unfold isLive at hl
      cases hp : dictGet? s.players c with
      | none =>
        simp only [hp] at hl
        exact Bool.noConfusion hl
      | some p =>
        simp only [hp] at hl
        simp [List.filterMap_cons, List.filter_cons, hc, hp, hl, ihr]

theorem broadcast_to_room_eq_map (s : ServerState) (roomId : String)
    (room : GameRoom) (m : OutMsg) (ex : String)
    (hroom : dictGet? s.rooms roomId = some room)
    (hlive : ∀ c ∈ room.players, c ≠ ex → isLive s c = true) :
    broadcast_to_room s roomId m (some ex)
      = (room.players.filter fun c => c != ex).map fun c => (c, m) := by
  unfold broadcast_to_room
  rw [hroom]
  simp only [Option.some.injEq]
  exact filterMap_broadcast s m ex room.players hlive

/-! ## Framing lemmas -/

theorem splitFramesAux_no_newline (fuel : Nat) (buf : List Nat)
    (h : 10 ∉ buf) : splitFramesAux fuel buf = ([], buf) := by
  cases fuel with
  | zero => rfl
  | succ f => simp [splitFramesAux, h]

theorem stoneCount_freshBoard : stoneCount freshBoard = 0 := by decide

/-! ## The committed-move shape of `_handle_game_move` -/

/-- The room record after `_handle_game_move` commits a move. -/
def roomAfterMove (room : GameRoom) (playerName : String) (d : GameMoveData)
    (now : Rat) (b2 : Board) : GameRoom :=
  { room with
    game_state :=
      { board := b2
        current_player := 3 - room.game_state.current_player
        moves := room.game_state.moves ++ [⟨playerName, d.row, d.col⟩] }
    timer_state := some (timerAfterMove room now) }

theorem effectiveBoard_no_sync (room : GameRoom) (d : GameMoveData)
    (hnb : d.board = none) (hbne : room.game_state.board ≠ []) :
    effectiveBoard room d = room.game_state.board := by
  simp [effectiveBoard, hnb, hbne]

theorem effectiveBoard_sync (room : GameRoom) (d : GameMoveData) (b : Board)
    (hb : d.board = some b) (hbne : b ≠ []) :
    effectiveBoard room d = b := by
  simp [effectiveBoard, hb, hbne]

/-- Whenever the sender is registered with a live socket, sits in an
existing room, and the indexing `board[row][col] = player_id` succeeds,
`_handle_game_move` commits the move: this is the exact result. -/
theorem handle_game_move_commit (s : ServerState) (clientId : String)
    (player : Player) (roomId : String) (room : GameRoom) (d : GameMoveData)
    (now : Rat) (b2 : Board)
    (hp : dictGet? s.players clientId = some player)
    (hsock : player.socket = true)
    (hrid : player.room_id = some roomId)
    (hroom : dictGet? s.rooms roomId = some room)
    (hset : boardSet (effectiveBoard room d) d.row d.col d.player_id = some b2) :
    handle_game_move s clientId d now =
      ⟨{ s with rooms := dictSet s.rooms roomId (roomAfterMove room player.name d now b2) },
        (clientId,
            OutMsg.timer_sync (some (timerAfterMove room now)))
          :: broadcast_to_room
              { s with rooms := dictSet s.rooms roomId (roomAfterMove room player.name d now b2) }
              roomId
              (OutMsg.game_move player.name d.row d.col d.player_id
                (some (timerAfterMove room now)))
              (some clientId),
        false⟩ := by
  unfold handle_game_move send_to_client
  simp only [hp, hrid, hroom, hsock, hset, roomAfterMove]
  rfl

/-! ## A concrete two-player scenario (scenario 1 of the spec) -/

/-- Alice: seat 0 (Black) of `room_1`. -/
def alice : Player :=
  { client_id := "cA", name := "Alice", socket := true, room_id := some ("room_1") }

/-- Bob: seat 1 (White) of `room_1`. -/
def bob : Player :=
  { client_id := "cB", name := "Bob", socket := true, room_id := some ("room_1") }

/-- The `timer_state` a fresh room starts with (`__post_init__`). -/
def initialTimer : TimerState :=
  { turn_start_time := none, elapsed_before_pause := 0, move_time_limit := 60 }

/-- A freshly started two-player room; Black (seat 0) is to move. -/
def gameRoom1 : GameRoom :=
  { room_id := "room_1", name := "A", host_id := "cA"
    players := ["cA", "cB"], max_players := 2
    game_state := freshGameState, game_paused := false
    timer_state := some { turn_start_time := none, elapsed_before_pause := 0,
                          move_time_limit := 60 } }

/-- The server right after both players joined `room_1`. -/
def twoPlayerState : ServerState :=
  { players := [("cA", alice), ("cB", bob)]
    rooms := [("room_1", gameRoom1)]
    next_room_id := 2 }

/-- Bob's out-of-turn move at (7,7) while it is Alice's turn. -/
def bobMove : GameMoveData := { row := 7, col := 7, player_id := 2, board := none }

/-- Alice's opening move at (7,7). -/
def aliceMove : GameMoveData := { row := 7, col := 7, player_id := 1, board := none }

/-- The board after Bob's stone lands on the fresh board. -/
def bobBoard2 : Board := (boardSet freshBoard 7 7 2).getD []

/-- The board after Alice's stone lands on the fresh board. -/
def aliceBoard2 : Board := (boardSet freshBoard 7 7 1).getD []

/-! ## C1 -/

/-- C1 (counterexample): Bob (seat index 1) sends a `game_move` while it is
Alice's turn (`current_player_index` 0); the handler does not reject it —
the move log grows, `current_player` flips, and outbound messages are
produced. -/
theorem off_turn_move_committed_cex :
    offTurn gameRoom1 ("cB") ∧
    (handle_game_move twoPlayerState ("cB") bobMove 100).err = false ∧
    (dictGet? (handle_game_move twoPlayerState ("cB") bobMove 100).state.rooms
        ("room_1")).map (fun r => r.game_state.moves.length) = some 1 ∧
    (dictGet? (handle_game_move twoPlayerState ("cB") bobMove 100).state.rooms
        ("room_1")).map (fun r => r.game_state.current_player) = some 2 ∧
    (handle_game_move twoPlayerState ("cB") bobMove 100).out ≠ [] := by
  decide

/-- C1 (amended): `_handle_game_move` performs no turn-authority check:
a `game_move` from any registered sender with a live socket whose room
exists is committed — the move log grows, the turn flips, and messages
fan out — even when the sender's seat index differs from
`current_player_index`.  The handler returns without acting only when the
sender is unregistered, its socket is gone, it carries no room id, or the
room does not exist. -/
theorem off_turn_move_committed (s : ServerState) (clientId : String)
    (player : Player) (roomId : String) (room : GameRoom) (d : GameMoveData)
    (now : Rat) (b2 : Board)
    (hp : dictGet? s.players clientId = some player)
    (hsock : player.socket = true)
    (hrid : player.room_id = some roomId)
    (hroom : dictGet? s.rooms roomId = some room)
    (hset : boardSet (effectiveBoard room d) d.row d.col d.player_id = some b2)
    (hoff : offTurn room clientId) :
    (handle_game_move s clientId d now).err = false ∧
    (handle_game_move s clientId d now).out ≠ [] ∧
    ∃ room', dictGet? (handle_game_move s clientId d now).state.rooms roomId
        = some room' ∧
      room'.game_state.moves
        = room.game_state.moves ++ [⟨player.name, d.row, d.col⟩] ∧
      room'.game_state.current_player = 3 - room.game_state.current_player := by
  rw [handle_game_move_commit s clientId player roomId room d now b2
    hp hsock hrid hroom hset]
  exact ⟨rfl, by simp,
    roomAfterMove room player.name d now b2,
    dictGet?_dictSet_self s.rooms roomId _, rfl, rfl⟩

/-- Witness for the amended C1: Bob's out-of-turn move in the concrete
two-player scenario. -/
theorem off_turn_move_committed_witness :
    (handle_game_move twoPlayerState ("cB") bobMove 100).err = false ∧
    (handle_game_move twoPlayerState ("cB") bobMove 100).out ≠ [] ∧
    ∃ room', dictGet? (handle_game_move twoPlayerState ("cB") bobMove 100).state.rooms
        ("room_1") = some room' ∧
      room'.game_state.moves
        = gameRoom1.game_state.moves ++ [⟨bob.name, bobMove.row, bobMove.col⟩] ∧
      room'.game_state.current_player = 3 - gameRoom1.game_state.current_player :=
  off_turn_move_committed twoPlayerState ("cB") bob ("room_1") gameRoom1 bobMove
    100 bobBoard2 (by decide) (by decide) (by decide) (by decide) (by decide)
    (by decide)

/-! ## C2 -/

/-- C2: when a `game_move` commits, the mover receives exactly one
`timer_sync` (and nothing else), and every other roster member — all
live — receives exactly one `game_move` carrying
`player`, `row`, `col`, `player_id`, and `timer_state`; the mover is
excluded from that broadcast. -/
theorem move_commit_fanout (s : ServerState) (clientId : String)
    (player : Player) (roomId : String) (room : GameRoom) (d : GameMoveData)
    (now : Rat) (b2 : Board)
    (hp : dictGet? s.players clientId = some player)
    (hsock : player.socket = true)
    (hrid : player.room_id = some roomId)
    (hroom : dictGet? s.rooms roomId = some room)
    (hset : boardSet (effectiveBoard room d) d.row d.col d.player_id = some b2)
    (hlive : ∀ c ∈ room.players, c ≠ clientId → isLive s c = true)
    (hothers : room.players.filter (fun c => c != clientId) ≠ []) :
    (handle_game_move s clientId d now).err = false ∧
    (handle_game_move s clientId d now).out
      = (clientId, OutMsg.timer_sync (some (timerAfterMove room now)))
          :: (room.players.filter fun c => c != clientId).map
              (fun c => (c, OutMsg.game_move player.name d.row d.col d.player_id
                (some (timerAfterMove room now)))) := by
  rw [handle_game_move_commit s clientId player roomId room d now b2
    hp hsock hrid hroom hset]
  refine ⟨rfl, ?_⟩
  have hroom' : dictGet?
      ({ s with rooms := dictSet s.rooms roomId (roomAfterMove room player.name d now b2) }).rooms
      roomId = some (roomAfterMove room player.name d now b2) :=
    dictGet?_dictSet_self s.rooms roomId _
  rw [broadcast_to_room_eq_map _ roomId (roomAfterMove room player.name d now b2)
    _ clientId hroom' hlive]
  rfl

/-- Witness for C2: Alice's opening move; she gets the `timer_sync`, Bob
alone gets the `game_move`. -/
theorem move_commit_fanout_witness :
    (handle_game_move twoPlayerState ("cA") aliceMove 100).err = false ∧
    (handle_game_move twoPlayerState ("cA") aliceMove 100).out
      = ("cA", OutMsg.timer_sync (some (timerAfterMove gameRoom1 100)))
          :: (gameRoom1.players.filter fun c => c != ("cA")).map
              (fun c => (c, OutMsg.game_move alice.name aliceMove.row aliceMove.col
                aliceMove.player_id (some (timerAfterMove gameRoom1 100)))) :=
  move_commit_fanout twoPlayerState ("cA") alice ("room_1") gameRoom1 aliceMove
    100 aliceBoard2 (by decide) (by decide) (by decide) (by decide) (by decide)
    (by decide) (by decide)

/-! ## C5 -/

/-- C5: after every committed move, the room's timer state anchors the
turn start at the commit time `now`, zeroes `elapsed_before_pause`, and
keeps `move_time_limit` unchanged. -/
theorem move_commit_timer_reset (s : ServerState) (clientId : String)
    (player : Player) (roomId : String) (room : GameRoom) (d : GameMoveData)
    (now : Rat) (b2 : Board) (ts : TimerState)
    (hp : dictGet? s.players clientId = some player)
    (hsock : player.socket = true)
    (hrid : player.room_id = some roomId)
    (hroom : dictGet? s.rooms roomId = some room)
    (hset : boardSet (effectiveBoard room d) d.row d.col d.player_id = some b2)
    (hts : room.timer_state = some ts) :
    (handle_game_move s clientId d now).err = false ∧
    ∃ room', dictGet? (handle_game_move s clientId d now).state.rooms roomId
        = some room' ∧
      room'.timer_state
        = some { turn_start_time := some now, elapsed_before_pause := 0,
                 move_time_limit := ts.move_time_limit } := by
  rw [handle_game_move_commit s clientId player roomId room d now b2
    hp hsock hrid hroom hset]
  refine ⟨rfl, roomAfterMove room player.name d now b2,
    dictGet?_dictSet_self s.rooms roomId _, ?_⟩
  simp [roomAfterMove, timerAfterMove, hts]

/-- Witness for C5: Alice's opening move resets the timer to
`(100, 0, 60)`. -/
theorem move_commit_timer_reset_witness :
    (handle_game_move twoPlayerState ("cA") aliceMove 100).err = false ∧
    ∃ room', dictGet? (handle_game_move twoPlayerState ("cA") aliceMove 100).state.rooms
        ("room_1") = some room' ∧
      room'.timer_state
        = some { turn_start_time := some 100, elapsed_before_pause := 0,
                 move_time_limit := initialTimer.move_time_limit } :=
  move_commit_timer_reset twoPlayerState ("cA") alice ("room_1") gameRoom1
    aliceMove 100 aliceBoard2 initialTimer
    (by decide) (by decide) (by decide) (by decide) (by decide) (by decide)

/-! ## C10 -/

/-- C10: a `game_move` whose data carries a non-empty `board` field makes
the server discard its own board mirror and adopt the client-supplied
board (then apply the move on top of it); no hypothesis relates the
supplied board to the room's move log — the server accepts any board. -/
theorem board_sync_overwrites (s : ServerState) (clientId : String)
    (player : Player) (roomId : String) (room : GameRoom) (d : GameMoveData)
    (now : Rat) (b b2 : Board)
    (hp : dictGet? s.players clientId = some player)
    (hsock : player.socket = true)
    (hrid : player.room_id = some roomId)
    (hroom : dictGet? s.rooms roomId = some room)
    (hb : d.board = some b) (hbne : b ≠ [])
    (hset : boardSet b d.row d.col d.player_id = some b2) :
    (handle_game_move s clientId d now).err = false ∧
    ∃ room', dictGet? (handle_game_move s clientId d now).state.rooms roomId
        = some room' ∧
      room'.game_state.board = b2 ∧
      room'.game_state.moves
        = room.game_state.moves ++ [⟨player.name, d.row, d.col⟩] := by
  have he : effectiveBoard room d = b := effectiveBoard_sync room d b hb hbne
  rw [handle_game_move_commit s clientId player roomId room d now b2
    hp hsock hrid hroom (by rw [he]; exact hset)]
  exact ⟨rfl, roomAfterMove room player.name d now b2,
    dictGet?_dictSet_self s.rooms roomId _, rfl, rfl⟩

/-- A client-supplied board bearing no relation to the (empty) move log:
three White stones already on row 0. -/
def rogueBoard : Board :=
  [[2, 2, 2, 0, 0, 0, 0, 0, 0, 0, 0, 0, 0, 0, 0]] ++
    List.replicate 14 (List.replicate 15 0)

/-- Alice's opening move carrying the rogue board as a board sync. -/
def rogueMove : GameMoveData :=
  { row := 7, col := 7, player_id := 1, board := some rogueBoard }

/-- The rogue board after Alice's stone lands on it. -/
def rogueBoard2 : Board := (boardSet rogueBoard 7 7 1).getD []

/-- Witness for C10: the rogue board (3 stones, empty move log) is
adopted wholesale. -/
theorem board_sync_overwrites_witness :
    (handle_game_move twoPlayerState ("cA") rogueMove 100).err = false ∧
    ∃ room', dictGet? (handle_game_move twoPlayerState ("cA") rogueMove 100).state.rooms
        ("room_1") = some room' ∧
      room'.game_state.board = rogueBoard2 ∧
      room'.game_state.moves
        = gameRoom1.game_state.moves ++ [⟨alice.name, rogueMove.row, rogueMove.col⟩] :=
  board_sync_overwrites twoPlayerState ("cA") alice ("room_1") gameRoom1
    rogueMove 100 rogueBoard rogueBoard2 (by decide) (by decide) (by decide)
    (by decide) (by decide) (by decide) (by decide)

/-! ## C4 -/

/-- A room in which Alice's opening stone is on the board and logged;
the board/move-log invariant holds (1 stone, 1 move). -/
def occupiedRoom : GameRoom :=
  { gameRoom1 with
    game_state := { board := aliceBoard2, current_player := 2,
                    moves := [⟨"Alice", 7, 7⟩] } }

/-- `twoPlayerState` with Alice's opening move already committed. -/
def occupiedState : ServerState :=
  { twoPlayerState with rooms := [("room_1", occupiedRoom)] }

/-- C4 (counterexample): Bob moves onto the already-occupied cell (7,7);
the handler overwrites the stone and appends to the move log, so the
board mirror now has 1 stone against 2 logged moves — the invariant does
not survive every `game_move`. -/
theorem board_move_log_invariant_cex :
    roomInvariant occupiedRoom ∧
    (handle_game_move occupiedState ("cB") bobMove 100).err = false ∧
    (dictGet? (handle_game_move occupiedState ("cB") bobMove 100).state.rooms
        ("room_1")).map (fun r => stoneCount r.game_state.board) = some 1 ∧
    (dictGet? (handle_game_move occupiedState ("cB") bobMove 100).state.rooms
        ("room_1")).map (fun r => r.game_state.moves.length) = some 2 := by
  decide

/-- C4 (amended): room creation and an accepted new-game reset establish
the board/move-log invariant, and a committed `game_move` preserves it
provided the move lands on an in-bounds empty cell with a nonzero
`player_id`, the message carries no board sync, and the room's stored
board is non-empty.  (A move onto an occupied cell, a zero `player_id`,
or a client board sync can break it.) -/
theorem board_move_log_invariant (s : ServerState) (clientId : String)
    (player : Player) (roomId : String) (room : GameRoom) (d : GameMoveData)
    (now : Rat) (b2 : Board)
    (s1 : ServerState) (cid1 nm1 : String)
    (s2c : ServerState) (cid2 : String) (p2 : Player) (rid2 : String)
    (room2 : GameRoom)
    (hp : dictGet? s.players clientId = some player)
    (hsock : player.socket = true)
    (hrid : player.room_id = some roomId)
    (hroom : dictGet? s.rooms roomId = some room)
    (hbne : room.game_state.board ≠ [])
    (hnb : d.board = none)
    (hcell : cellAt room.game_state.board d.row d.col = some 0)
    (hpid : d.player_id ≠ 0)
    (hset : boardSet room.game_state.board d.row d.col d.player_id = some b2)
    (hinv : roomInvariant room)
    (h2p : dictGet? s2c.players cid2 = some p2)
    (h2r : p2.room_id = some rid2)
    (h2room : dictGet? s2c.rooms rid2 = some room2) :
    (∃ room', dictGet? (handle_game_move s clientId d now).state.rooms roomId
        = some room' ∧ roomInvariant room') ∧
    (∃ room', dictGet? (handle_room_create s1 cid1 nm1).state.rooms
        ("room_" ++ toString s1.next_room_id) = some room' ∧ roomInvariant room') ∧
    (∃ room', dictGet? (handle_new_game_response s2c cid2 true).state.rooms rid2
        = some room' ∧ roomInvariant room') := by
  refine ⟨?_, ?_, ?_⟩
  · have he : effectiveBoard room d = room.game_state.board :=
      effectiveBoard_no_sync room d hnb hbne
    rw [handle_game_move_commit s clientId player roomId room d now b2
      hp hsock hrid hroom (by rw [he]; exact hset)]
    refine ⟨roomAfterMove room player.name d now b2,
      dictGet?_dictSet_self s.rooms roomId _, ?_⟩
    show stoneCount b2 = (room.game_state.moves ++ [MoveRec.mk player.name d.row d.col]).length
    rw [stoneCount_boardSet room.game_state.board b2 d.row d.col d.player_id
      hset hcell hpid]
    unfold roomInvariant at hinv
    simp [hinv]
  · simp only [handle_room_create]
    split
    · exact ⟨_, dictGet?_dictSet_self _ _ _,
        by simp [roomInvariant, freshGameState, stoneCount_freshBoard]⟩
    · exact ⟨_, dictGet?_dictSet_self _ _ _,
        by simp [roomInvariant, freshGameState, stoneCount_freshBoard]⟩
  · unfold handle_new_game_response
    simp only [h2p, h2r, h2room, if_true]
    exact ⟨_, dictGet?_dictSet_self _ _ _,
      by simp [roomInvariant, freshGameState, stoneCount_freshBoard]⟩

/-- Witness for the amended C4: Alice's legal opening move, a fresh room
creation, and an accepted new-game reset, all in the concrete scenario. -/
theorem board_move_log_invariant_witness :
    (∃ room', dictGet? (handle_game_move twoPlayerState ("cA") aliceMove 100).state.rooms
        ("room_1") = some room' ∧ roomInvariant room') ∧
    (∃ room', dictGet? (handle_room_create twoPlayerState ("cC") ("B")).state.rooms
        ("room_" ++ toString twoPlayerState.next_room_id) = some room' ∧
        roomInvariant room') ∧
    (∃ room', dictGet? (handle_new_game_response twoPlayerState ("cA") true).state.rooms
        ("room_1") = some room' ∧ roomInvariant room') :=
  board_move_log_invariant twoPlayerState ("cA") alice ("room_1") gameRoom1
    aliceMove 100 aliceBoard2 twoPlayerState ("cC") ("B") twoPlayerState ("cA")
    alice ("room_1") gameRoom1 (by decide) (by decide) (by decide) (by decide)
    (by decide) (by decide) (by decide) (by decide) (by decide) (by decide)
    (by decide) (by decide) (by decide)

/-! ## C6 -/

/-- C6: a `player_pause` or `player_resume` from a client in an existing
room is relayed with the very same type tag and the identical data
payload to every other (live) roster member, and the entire server state
— rooms (board, move log, current player, timer state, paused flag) and
players alike — is returned unchanged.  No hypothesis constrains the
payload, so this holds in particular when `pauses_remaining` is
exhausted. -/
theorem pause_resume_pure_relay (s : ServerState) (clientId : String)
    (player : Player) (roomId : String) (room : GameRoom)
    (msgType : String) (data : JObj)
    (hp : dictGet? s.players clientId = some player)
    (hrid : player.room_id = some roomId)
    (hroom : dictGet? s.rooms roomId = some room)
    (hlive : ∀ c ∈ room.players, c ≠ clientId → isLive s c = true) :
    handle_pause_resume s clientId msgType data
      = ⟨s, (room.players.filter fun c => c != clientId).map
            (fun c => (c, OutMsg.forward msgType data)), false⟩ := by
  unfold handle_pause_resume
  simp only [hp, hrid, hroom]
  rw [broadcast_to_room_eq_map s roomId room _ clientId hroom hlive]

/-- A pause payload whose pause tokens are exhausted. -/
def pauseData : JObj :=
  [("player", JVal.str ("Alice")), ("remaining_turn", JVal.num 22),
   ("pauses_remaining", JVal.num 0), ("pause_timestamp", JVal.num 100)]

/-- Witness for C6: Alice's token-exhausted pause is still relayed to Bob
verbatim, with the server state untouched. -/
theorem pause_resume_pure_relay_witness :
    handle_pause_resume twoPlayerState ("cA") ("player_pause") pauseData
      = ⟨twoPlayerState, (gameRoom1.players.filter fun c => c != ("cA")).map
          (fun c => (c, OutMsg.forward ("player_pause") pauseData)), false⟩ :=
  pause_resume_pure_relay twoPlayerState ("cA") alice ("room_1") gameRoom1
    ("player_pause") pauseData (by decide) (by decide) (by decide) (by decide)

/-! ## C9 -/

/-- C9: a message whose handler raises (`err = true`) does not terminate
the dispatch loop: the final state is the one obtained by continuing with
the remaining queued messages, and their emissions all still happen.  The
dispatcher's `try/except Exception` confines every handler error. -/
theorem dispatcher_survives_handler_error (s : ServerState) (cid : String)
    (m : InMsg) (rest : List (String × InMsg)) (now : Rat)
    (herr : (handle_message s cid m now).err = true) :
    (process_messages s ((cid, m) :: rest) now).1
        = (process_messages (handle_message s cid m now).state rest now).1 ∧
    (process_messages s ((cid, m) :: rest) now).2
        = (handle_message s cid m now).out
            ++ (process_messages (handle_message s cid m now).state rest now).2 := by
  exact ⟨rfl, rfl⟩

/-- A `game_move` whose row is out of range: `board[99][0]` raises
`IndexError` inside the handler. -/
def badMove : GameMoveData := { row := 99, col := 0, player_id := 2, board := none }

/-- Witness for C9: Bob's out-of-range move raises, yet Alice's queued
move is still processed. -/
theorem dispatcher_survives_handler_error_witness :
    (process_messages twoPlayerState
        [("cB", InMsg.game_move badMove), ("cA", InMsg.game_move aliceMove)] 100).1
      = (process_messages
          (handle_message twoPlayerState ("cB") (InMsg.game_move badMove) 100).state
          [("cA", InMsg.game_move aliceMove)] 100).1 ∧
    (process_messages twoPlayerState
        [("cB", InMsg.game_move badMove), ("cA", InMsg.game_move aliceMove)] 100).2
      = (handle_message twoPlayerState ("cB") (InMsg.game_move badMove) 100).out
          ++ (process_messages
              (handle_message twoPlayerState ("cB") (InMsg.game_move badMove) 100).state
              [("cA", InMsg.game_move aliceMove)] 100).2 :=
  dispatcher_survives_handler_error twoPlayerState ("cB") (InMsg.game_move badMove)
    [("cA", InMsg.game_move aliceMove)] 100 (by decide)

/-! ## C7 -/

/-- C7: losing the connection while holding a room reference emits
`connection_lost` and then attempts reconnection at most 12 times,
emitting `reconnecting(attempt, 12)` for each attempt with a 5-second
backoff between attempts; when every attempt fails the client emits
`reconnect_failed` followed by `disconnect`.  Without a room reference
the client just disconnects, making no reconnection attempt. -/
theorem reconnect_bounded_loop (rid : String) (tryConnect : Nat → Bool)
    (hfail : ∀ a, tryConnect a = false) :
    receive_loop_exit true false (some rid) 12 tryConnect
      = [ClientEvent.connection_lost,
         ClientEvent.reconnecting 1 12, ClientEvent.sleep 5,
         ClientEvent.reconnecting 2 12, ClientEvent.sleep 5,
         ClientEvent.reconnecting 3 12, ClientEvent.sleep 5,
         ClientEvent.reconnecting 4 12, ClientEvent.sleep 5,
         ClientEvent.reconnecting 5 12, ClientEvent.sleep 5,
         ClientEvent.reconnecting 6 12, ClientEvent.sleep 5,
         ClientEvent.reconnecting 7 12, ClientEvent.sleep 5,
         ClientEvent.reconnecting 8 12, ClientEvent.sleep 5,
         ClientEvent.reconnecting 9 12, ClientEvent.sleep 5,
         ClientEvent.reconnecting 10 12, ClientEvent.sleep 5,
         ClientEvent.reconnecting 11 12, ClientEvent.sleep 5,
         ClientEvent.reconnecting 12 12,
         ClientEvent.reconnect_failed, ClientEvent.disconnect] ∧
    receive_loop_exit true false none 12 tryConnect
      = [ClientEvent.disconnect] := by
  constructor
  · unfold receive_loop_exit reconnect_loop
    simp [reconnectGo, hfail]
  · rfl

/-- Witness for C7: every attempt failing. -/
theorem reconnect_bounded_loop_witness :
    receive_loop_exit true false (some ("room_1")) 12 (fun _ => false)
      = [ClientEvent.connection_lost,
         ClientEvent.reconnecting 1 12, ClientEvent.sleep 5,
         ClientEvent.reconnecting 2 12, ClientEvent.sleep 5,
         ClientEvent.reconnecting 3 12, ClientEvent.sleep 5,
         ClientEvent.reconnecting 4 12, ClientEvent.sleep 5,
         ClientEvent.reconnecting 5 12, ClientEvent.sleep 5,
         ClientEvent.reconnecting 6 12, ClientEvent.sleep 5,
         ClientEvent.reconnecting 7 12, ClientEvent.sleep 5,
         ClientEvent.reconnecting 8 12, ClientEvent.sleep 5,
         ClientEvent.reconnecting 9 12, ClientEvent.sleep 5,
         ClientEvent.reconnecting 10 12, ClientEvent.sleep 5,
         ClientEvent.reconnecting 11 12, ClientEvent.sleep 5,
         ClientEvent.reconnecting 12 12,
         ClientEvent.reconnect_failed, ClientEvent.disconnect] ∧
    receive_loop_exit true false none 12 (fun _ => false)
      = [ClientEvent.disconnect] :=
  reconnect_bounded_loop ("room_1") (fun _ => false) (fun _ => rfl)

/-! ## C8 -/

/-- A single frame of 64 KiB + 1 bytes, none of them a newline. -/
def bigFrame : List Nat := List.replicate 65537 65

/-- C8 (counterexample): a 65537-byte newline-free frame arrives; the
connection is not closed — the whole frame is simply retained in the
buffer, which now exceeds the claimed 64 KiB cap. -/
theorem frame_cap_cex :
    (recvStep [] bigFrame).closed = false ∧
    (recvStep [] bigFrame).buffer.length = 65537 ∧
    64 * 1024 < (recvStep [] bigFrame).buffer.length := by
  have hlen : bigFrame.length = 65537 := List.length_replicate 65537 65
  have hne : bigFrame ≠ [] := by
    intro h
    rw [h] at hlen
    exact absurd hlen (by decide)
  have hnl : (10 : Nat) ∉ ([] : List Nat) ++ bigFrame := by
    rw [List.nil_append]
    intro hmem
    exact absurd (List.eq_of_mem_replicate hmem) (by decide)
  have hsplit : splitFrames (([] : List Nat) ++ bigFrame)
      = ([], ([] : List Nat) ++ bigFrame) :=
    splitFramesAux_no_newline _ _ hnl
  have hstep : recvStep [] bigFrame
      = { closed := false, buffer := ([] : List Nat) ++ bigFrame, frames := [] } := by
    unfold recvStep
    rw [if_neg hne, hsplit]
    rfl
  rw [hstep]
  refine ⟨rfl, ?_, ?_⟩
  · rw [List.nil_append]
    exact hlen
  · rw [List.nil_append, hlen]
    decide

/-- C8 (amended): the receive step of `_handle_client` closes the
connection exactly when `recv` returns no bytes (EOF); frame size never
closes it — there is no cap, and an over-long frame stays buffered until
its newline arrives. -/
theorem close_only_on_eof (buffer data : List Nat) :
    (recvStep buffer data).closed = true ↔ data = [] := by
  unfold recvStep
  by_cases h : data = [] <;> simp [h]

/-! ## C3 -/

/-- C3: when a client in a room disconnects, `_remove_client` removes it
from the roster; if nobody survives the room is deleted and no message is
sent; if one (live) peer survives it receives exactly one
`game_ended_disconnect` with reason `opponent_disconnected`, the
survivor's name as winner, `forfeit` and `no_rematch` true, followed by
exactly one updated `room_info`; finally the disconnected player's record
is deleted.  The disjunctive hypothesis is the roster invariant
(`host_id` is one of the two roster members), so both directions are
covered: a host disconnect transfers the host role to the survivor
("You are now the host!"), a non-host disconnect keeps the survivor as
host ("Opponent disconnected. You are the host."), matching the two
branches at dedicated_server.py:825-834. -/
theorem disconnect_forfeit_cascade (s : ServerState) (clientId : String)
    (player : Player) (roomId : String) (room : GameRoom)
    (hp : dictGet? s.players clientId = some player)
    (hsock : player.socket = true)
    (hrid : player.room_id = some roomId)
    (hroom : dictGet? s.rooms roomId = some room) :
    (room.players.erase clientId = [] →
      dictGet? (remove_client s clientId false).1.rooms roomId = none ∧
      (remove_client s clientId false).2 = [] ∧
      dictGet? (remove_client s clientId false).1.players clientId = none) ∧
    (∀ w pw, room.players.erase clientId = [w] → w ≠ clientId →
      dictGet? s.players w = some pw → pw.socket = true →
      (room.host_id = clientId ∨ room.host_id = w) →
      (remove_client s clientId false).2
        = [(w, OutMsg.game_ended_disconnect ("opponent_disconnected") player.name
              pw.name (player.name ++ " has disconnected. " ++ pw.name
                ++ " wins by forfeit!") true true),
           (w, OutMsg.room_info room.room_id room.name pw.name 1 room.max_players
              (some (if room.host_id = clientId then "You are now the host!"
                     else "Opponent disconnected. You are the host.")))] ∧
      dictGet? (remove_client s clientId false).1.players clientId = none ∧
      ∃ room', dictGet? (remove_client s clientId false).1.rooms roomId
          = some room' ∧ room'.players = [w]) := by
  constructor
  · intro herase
    refine ⟨?_, ?_, ?_⟩ <;>
      simp [remove_client, hp, hsock, hrid, hroom, herase,
        dictGet?_dictErase_self]
  · intro w pw herase hwne hpw hpsock hdisj
    rcases hdisj with hhost | hhost
    · refine ⟨?_, ?_, ?_⟩
      · simp [remove_client, hp, hsock, hrid, hroom, herase, hwne, hpw, hpsock,
          hhost, dictGet?_dictSet_self, dictGet?_dictSet_ne, send_to_client,
          broadcast_to_room, List.findSome?]
      · simp [remove_client, hp, hsock, hrid, hroom, herase, hwne, hpw, hpsock,
          hhost, dictGet?_dictSet_self, dictGet?_dictSet_ne,
          dictGet?_dictErase_self, send_to_client, broadcast_to_room,
          List.findSome?]
      · refine ⟨{ room with players := [w], host_id := w }, ?_, rfl⟩
        simp [remove_client, hp, hsock, hrid, hroom, herase, hwne, hpw, hpsock,
          hhost, dictGet?_dictSet_self, dictGet?_dictSet_ne,
          dictGet?_dictErase_ne, send_to_client, broadcast_to_room,
          List.findSome?]
    · refine ⟨?_, ?_, ?_⟩
      · simp [remove_client, hp, hsock, hrid, hroom, herase, hwne, hpw, hpsock,
          hhost, Ne.symm hwne, dictGet?_dictSet_self, dictGet?_dictSet_ne,
          send_to_client, broadcast_to_room, List.findSome?]
      · simp [remove_client, hp, hsock, hrid, hroom, herase, hwne, hpw, hpsock,
          hhost, Ne.symm hwne, dictGet?_dictSet_self, dictGet?_dictSet_ne,
          dictGet?_dictErase_self, send_to_client, broadcast_to_room,
          List.findSome?]
      · refine ⟨{ room with players := [w], host_id := w }, ?_, rfl⟩
        simp [remove_client, hp, hsock, hrid, hroom, herase, hwne, hpw, hpsock,
          hhost, Ne.symm hwne, dictGet?_dictSet_self, dictGet?_dictSet_ne,
          dictGet?_dictErase_ne, send_to_client, broadcast_to_room,
          List.findSome?]

/-- Witness for C3, the spec's scenario 2: Bob -- the non-host joiner --
disconnects mid-game; Alice gets one `game_ended_disconnect` naming her
winner and one `room_info` keeping her as host, and Bob's record is
gone. -/
theorem disconnect_forfeit_cascade_witness :
    (remove_client twoPlayerState ("cB") false).2
      = [("cA", OutMsg.game_ended_disconnect ("opponent_disconnected") bob.name
            alice.name (bob.name ++ " has disconnected. " ++ alice.name
              ++ " wins by forfeit!") true true),
         ("cA", OutMsg.room_info gameRoom1.room_id gameRoom1.name alice.name 1
            gameRoom1.max_players
            (some ("Opponent disconnected. You are the host.")))] ∧
    dictGet? (remove_client twoPlayerState ("cB") false).1.players ("cB") = none ∧
    ∃ room', dictGet? (remove_client twoPlayerState ("cB") false).1.rooms
        ("room_1") = some room' ∧ room'.players = ["cA"] :=
  (disconnect_forfeit_cascade twoPlayerState ("cB") bob ("room_1") gameRoom1
    (by decide) (by decide) (by decide) (by decide)).2 ("cA") alice (by decide)
    (by decide) (by decide) (by decide) (by decide)
